import Mathlib

/-!
# Verification of the Sumrise Maths grading engine

Shallow embedding of `routers/marking.py` (the grading engine of the
`sumrisemaths-grading` service) together with proofs about the claims of its
specification.  Python machine floats are modelled as the IEEE-754 binary64
subset of `ℚ` with explicit round-to-nearest-even; sympy exact numbers
(Integer / Rational / Float) are modelled by their exact rational value.

The sympy expression parser (`parse_expr`) is an external library, not code of
this repository; expressions the engine hands to it are modelled by the value
sympy returns for them, passed in as an explicit `parse` function
(see `ParseRes` below).
-/

attribute [local semireducible] Rat.add Rat.mul Rat.inv Rat.sub

set_option maxRecDepth 8000

namespace Marking

/-! ## Python string helpers

`_ALLOWED_RE = ^[0-9+\-*$/^().\s]\x7b1,100\x7d$` and friends.  Whitespace is
modelled as the ASCII whitespace class Python's `\s` matches on ASCII text;
unicode whitespace is outside the modelled fragment.
-/

/-- The ASCII characters matched by Python's `\s` (and stripped by `str.strip`). -/
def isPySpace (c : Char) : Bool :=
  c == ' ' || c == '\t' || c == '\n' || c == '\r' || c == '\x0b' || c == '\x0c'

/-- Python `str.strip()` (ASCII whitespace fragment). -/
def pyStrip (s : String) : String :=
  String.mk (((s.toList.dropWhile isPySpace).reverse.dropWhile isPySpace).reverse)

/-- The character class of `_ALLOWED_RE`: digits, whitespace and `+ - * / ^ ( ) .`. -/
def isAllowedChar (c : Char) : Bool :=
  c.isDigit || c == '+' || c == '-' || c == '*' || c == '/' || c == '^' ||
    c == '(' || c == ')' || c == '.' || isPySpace c

/-- Model of `_ALLOWED_RE.fullmatch(s)`: every char in the class and 1 ≤ len ≤ 100. -/
def allowedFullmatch (s : String) : Bool :=
  1 ≤ s.length && s.length ≤ 100 && s.toList.all isAllowedChar

/-- Message `_INVALID_CHARS_MSG` from `routers/marking.py`. -/
def invalidCharsMsg : String :=
  "Only numeric expressions using digits, spaces, + - * / ^ . and parentheses are allowed."

/-- Message `_NON_FINITE_MSG` from `routers/marking.py`. -/
def nonFiniteMsg : String := "Expression is not finite (e.g., division by zero)."

/-- Message `_TOO_COMPLEX_MSG` from `routers/marking.py`. -/
def tooComplexMsg : String := "Expression is too complex."

/-- Model of `_validate_answer_text` (`routers/marking.py:57-64`): empty after strip,
then length over `LEN_LIMIT = 100`, then the character-class full match. -/
def validateAnswerText (s : String) : Option String :=
  if pyStrip s = "" then some "Answer required."
  else if 100 < s.length then some "Answer too long (> 100)."
  else if !allowedFullmatch s then some invalidCharsMsg
  else none

/-- Substring occurrence at the head of a character list. -/
def runAt : List Char → List Char → Bool
  | [], _ => true
  | _ :: _, [] => false
  | a :: as, b :: bs => a == b && runAt as bs

/-- Substring occurrence anywhere in a character list (needle second arg first). -/
def runIn (n : List Char) : List Char → Bool
  | [] => runAt n []
  | c :: t => runAt n (c :: t) || runIn n t

/-- Python `needle in hay` on Python strings. -/
def strHas (hay needle : String) : Bool := runIn needle.toList hay.toList

/-! ## Literal parsers

Models of the regex matches and of Python's `int(...)` / `float(...)` literal
conversions used by `_is_reduced_fraction_str` and `_prepare_expected`
(ASCII digits; underscore separators, scientific notation and `inf`/`nan`
literals are outside the modelled fragment — no caller below produces them).
-/

/-- Drop leading whitespace (`\s*`). -/
def manySpaces (l : List Char) : List Char := l.dropWhile isPySpace

/-- Consume an optional `+`/`-` sign; returns (isNegative, rest). -/
def readSign : List Char → Bool × List Char
  | '-' :: t => (true, t)
  | '+' :: t => (false, t)
  | l => (false, l)

/-- Numeric value of a string of ASCII digits. -/
def digitsToNat (l : List Char) : ℕ :=
  l.foldl (fun a c => a * 10 + (c.toNat - 48)) 0

/-- Apply a sign flag to a natural number. -/
def applySign (neg : Bool) (n : ℕ) : ℤ := if neg then -(n : ℤ) else (n : ℤ)

/-- Model of `re.match(r"^\s*([+-]?\d+)\s*/\s*([+-]?\d+)\s*$", s)` from
`_is_reduced_fraction_str` (`routers/marking.py:200-205`), returning the two
signed integer groups. -/
def litFracParse (s : String) : Option (ℤ × ℤ) :=
  let l1 := manySpaces s.toList
  let (neg1, l2) := readSign l1
  let ds1 := l2.takeWhile Char.isDigit
  if ds1.isEmpty then none else
  match manySpaces (l2.drop ds1.length) with
  | '/' :: l4 =>
    let (neg2, l6) := readSign (manySpaces l4)
    let ds2 := l6.takeWhile Char.isDigit
    if ds2.isEmpty then none
    else if (manySpaces (l6.drop ds2.length)).isEmpty then
      some (applySign neg1 (digitsToNat ds1), applySign neg2 (digitsToNat ds2))
    else none
  | _ => none

/-- Model of `_is_reduced_fraction_str` (`routers/marking.py:200-205`): text that is not
a literal `±int/±int` counts as reduced; a literal fraction is reduced iff the
gcd of the absolute values is 1 (`math.gcd` takes absolute values). -/
def isReducedFractionStr (s : String) : Bool :=
  match litFracParse s with
  | none => true
  | some (a, b) => Int.gcd a b == 1

/-- Model of `frac_pat = ^[+-]?\s*\d+\s*/\s*[+-]?\s*\d+\s*$` from `_prepare_expected`
(`routers/marking.py:225`); note the sign comes before the optional spaces
here, unlike `_is_reduced_fraction_str`'s pattern. -/
def fracPatMatch (s : String) : Bool :=
  let (_, l1) := readSign s.toList
  let ds1 := (manySpaces l1).takeWhile Char.isDigit
  if ds1.isEmpty then false else
  match manySpaces ((manySpaces l1).drop ds1.length) with
  | '/' :: l4 =>
    let (_, l6) := readSign (manySpaces l4)
    let ds2 := (manySpaces l6).takeWhile Char.isDigit
    if ds2.isEmpty then false
    else (manySpaces ((manySpaces l6).drop ds2.length)).isEmpty
  | _ => false

/-- Python `int(str)`: optional surrounding whitespace, optional sign, digits. -/
def pyIntParse (s : String) : Option ℤ :=
  let (neg, l2) := readSign (manySpaces s.toList)
  let ds := l2.takeWhile Char.isDigit
  if ds.isEmpty then none
  else if (manySpaces (l2.drop ds.length)).isEmpty then
    some (applySign neg (digitsToNat ds))
  else none

/-- Python `float(str)` restricted to plain decimal literals
`[+-]? digits [. digits]` (the exact value, before rounding to binary64). -/
def pyFloatParse (s : String) : Option ℚ :=
  let (neg, l1) := readSign (manySpaces s.toList)
  let ip := l1.takeWhile Char.isDigit
  let l2 := l1.drop ip.length
  match l2 with
  | '.' :: l3 =>
    let fp := l3.takeWhile Char.isDigit
    let l4 := l3.drop fp.length
    if ip.isEmpty && fp.isEmpty then none
    else if (manySpaces l4).isEmpty then
      some ((applySign neg 1 : ℚ) *
        ((digitsToNat ip : ℚ) + (digitsToNat fp : ℚ) / (10 : ℚ) ^ fp.length))
    else none
  | _ =>
    if ip.isEmpty then none
    else if (manySpaces l2).isEmpty then some ((applySign neg (digitsToNat ip) : ℤ) : ℚ)
    else none

/-- Model of `raw_str.split("/", 1)`: split at the first `/`; `none` when there is no
`/` (in which case the Python two-target unpacking raises). -/
def breakAtSlash : List Char → Option (List Char × List Char)
  | [] => none
  | '/' :: t => some ([], t)
  | c :: t =>
    match breakAtSlash t with
    | some (a, b) => some (c :: a, b)
    | none => none

/-! ## IEEE-754 binary64

Python's `float(...)` conversion of an exact rational is correctly rounded
round-to-nearest, ties-to-even.  `toDouble` computes that rounding exactly on
`ℚ`, `none` denoting overflow to infinity (where CPython's `float(sympy
Integer)` raises `OverflowError`).
-/

/-- Round to the nearest integer, ties to even (IEEE default rounding). -/
def rne (x : ℚ) : ℤ :=
  let f := ⌊x⌋
  let r := x - (f : ℚ)
  if r < 1/2 then f else if 1/2 < r then f + 1 else if f % 2 = 0 then f else f + 1

/-- Find `e` with `2^e ≤ a < 2^(e+1)`, walking the power up (fuel-bounded;
`p = 2^e ≤ a` is the invariant). -/
def qExpUp (a : ℚ) : ℕ → ℚ → ℤ → ℤ
  | 0, _, e => e
  | fuel + 1, p, e => if a < p * 2 then e else qExpUp a fuel (p * 2) (e + 1)

/-- Find `e` with `2^e ≤ a < 2^(e+1)` for `a < 1`, walking the power down
(fuel-bounded; `a < 2^(e+1)` is the invariant). -/
def qExpDown (a : ℚ) : ℕ → ℚ → ℤ → ℤ
  | 0, _, e => e
  | fuel + 1, p, e => if p ≤ a then e else qExpDown a fuel (p / 2) (e - 1)

/-- Binary exponent of a positive rational: `2^(qExp a) ≤ a < 2^(qExp a + 1)`.
1100 steps of fuel cover the whole binary64 range; beyond it the clamping in
`toDouble` makes the result irrelevant (underflow to 0 / overflow to ∞). -/
def qExp (a : ℚ) : ℤ :=
  if 1 ≤ a then qExpUp a 1100 1 0 else qExpDown a 1100 (1/2) (-1)

/-- Round a rational to the nearest IEEE-754 binary64 value (as an exact
rational), `none` on overflow to infinity.  Subnormals round on the fixed
`2^-1074` grid; the largest finite double is `(2^53 - 1) * 2^971`. -/
def toDouble (x : ℚ) : Option ℚ :=
  if x = 0 then some 0
  else
    let s : ℚ := if x < 0 then -1 else 1
    let a := |x|
    let e : ℤ := max (qExp a) (-1022)
    if 1023 < e then none
    else
      let m : ℤ := rne (a * (2 : ℚ) ^ (52 - e))
      if 1023 ≤ e ∧ (2 : ℤ) ^ 53 ≤ m then none
      else some (s * (m : ℚ) * (2 : ℚ) ^ (e - 52))

/-! ## The sympy value model

`parse_expr(s, transformations=TRANSFORMS, evaluate=True)` auto-evaluates
constant arithmetic, so for any input drawn from the validated character class
(digits and operators only — no letters, hence no free symbols) it returns a
*constant*: a sympy `Integer`/`Rational`/`Float` (modelled by its exact
rational value), or one of the non-finite constants `oo`, `-oo`, `zoo`, `nan`
(e.g. `1/0 → zoo`, `0/0 → nan`).  Irrational constants (e.g. `2^(1/2)`) are
outside the modelled fragment; no claim below exercises them.

The parser itself is external library code (sympy), so the engine model takes
the parse outcome as an explicit `parse : String → ParseRes` argument:
`ParseRes.fail` models `parse_expr` raising.
-/

/-- A sympy numeric constant: exact rational value, or a non-finite constant. -/
inductive SymC where
  | rat (q : ℚ)
  | posInf
  | negInf
  | czoo
  | cnan
deriving DecidableEq, Repr

/-- A sympy expression tree containing free symbols (only reachable from
un-validated bank text, never from validated answers); used by the
`count_ops`/`preorder_traversal` branch of the complexity guard. -/
inductive STree where
  | intLit (n : ℤ)
  | ratLit (q : ℚ)
  | svar
  | addN (a b : STree)
  | mulN (a b : STree)
  | powN (a b : STree)
deriving DecidableEq, Repr

/-- A sympy object as seen by `_assert_expr_complexity`: a numeric constant
(`is_number` true) or a symbolic expression (`is_number` false). -/
inductive SymObj where
  | num (c : SymC)
  | exprTree (t : STree)
deriving DecidableEq, Repr

/-- Model of `sym.count_ops()`: one op per `Add`/`Mul`/`Pow` node. -/
def countOps : STree → ℕ
  | .intLit _ => 0
  | .ratLit _ => 0
  | .svar => 0
  | .addN a b => countOps a + countOps b + 1
  | .mulN a b => countOps a + countOps b + 1
  | .powN a b => countOps a + countOps b + 1

/-- The traversal's integer-literal check: some `Integer` node has more than
`_MAX_INT_DIGITS = 200` decimal digits, i.e. absolute value `≥ 10^200`. -/
def hasBigInt : STree → Bool
  | .intLit n => (10 : ℤ) ^ 200 ≤ |n|
  | .ratLit _ => false
  | .svar => false
  | .addN a b => hasBigInt a || hasBigInt b
  | .mulN a b => hasBigInt a || hasBigInt b
  | .powN a b => hasBigInt a || hasBigInt b

/-- Model of `exp.is_number` for a subtree: no free symbols. -/
def noVar : STree → Bool
  | .intLit _ => true
  | .ratLit _ => true
  | .svar => false
  | .addN a b => noVar a && noVar b
  | .mulN a b => noVar a && noVar b
  | .powN a b => noVar a && noVar b

/-- Exact rational evaluation of a subtree, `none` when the value is not
rational (free symbol, non-integer power, zero to a negative power). -/
def treeEvalQ : STree → Option ℚ
  | .intLit n => some (n : ℚ)
  | .ratLit q => some q
  | .svar => none
  | .addN a b =>
    match treeEvalQ a, treeEvalQ b with
    | some x, some y => some (x + y)
    | _, _ => none
  | .mulN a b =>
    match treeEvalQ a, treeEvalQ b with
    | some x, some y => some (x * y)
    | _, _ => none
  | .powN a b =>
    match treeEvalQ a, treeEvalQ b with
    | some x, some y =>
      if y.den = 1 then
        if x = 0 ∧ y.num < 0 then none else some (x ^ y.num)
      else none
    | _, _ => none

/-- Python `int(...)` truncation toward zero of a rational. -/
def truncQ (q : ℚ) : ℤ := if 0 ≤ q then ⌊q⌋ else ⌈q⌉

/-- The traversal's exponent check: some `Pow` node has a numeric exponent of
magnitude above `_MAX_EXPONENT_ABS = 2000` (`int(exp)` truncates); exponents
whose value the model cannot produce take the nested-`except` `TooComplex`
path.  (sympy's `int()` of an irrational numeric exponent would instead
truncate — that corner is unreachable below: it needs a free-symbol-bearing
tree, which validated input cannot produce.) -/
def hasBigExp : STree → Bool
  | .intLit _ => false
  | .ratLit _ => false
  | .svar => false
  | .addN a b => hasBigExp a || hasBigExp b
  | .mulN a b => hasBigExp a || hasBigExp b
  | .powN a b =>
    (if noVar b then
      match treeEvalQ b with
      | some e => 2000 < |truncQ e|
      | none => true
     else false) || hasBigExp a || hasBigExp b

/-- Error taxonomy of the bounded evaluator. -/
inductive EvalErr where
  | parseFail
  | nonFinite
  | tooComplex
deriving DecidableEq, Repr

/-- The feedback string each evaluator error surfaces as (`str(e)` for the
`ValueError`s, `_INVALID_CHARS_MSG` for the generic `except Exception`). -/
def msgOfErr : EvalErr → String
  | .parseFail => invalidCharsMsg
  | .nonFinite => nonFiniteMsg
  | .tooComplex => tooComplexMsg

/-- Model of `_assert_expr_complexity` (`routers/marking.py:116-174`).  Crucial
source behaviour: for any sympy *number* (`is_number` — true of every
constant, finite or not) the function returns silently, because the
`raise ValueError(_NON_FINITE_MSG)` at line 135 sits inside the
`try: f = float(sym) ... except Exception: pass` block that swallows it
(lines 132-137).  Only a non-number expression reaches the
`count_ops`/`preorder_traversal` checks that can raise `TooComplex`.
(`parse_expr` never returns a plain Python scalar, so the
`isinstance(sym, (int, float))` branch is not modelled.) -/
def assertExprComplexity : SymObj → Except EvalErr Unit
  | .num _ => .ok ()
  | .exprTree t =>
    if 200 < countOps t then .error .tooComplex
    else if hasBigInt t then .error .tooComplex
    else if hasBigExp t then .error .tooComplex
    else .ok ()

/-- Model of `_assert_finite_sym` (`routers/marking.py:108-113`): raises on `oo`,
`-oo`, `zoo`, `nan`; rationals are finite. -/
def assertFiniteSym : SymC → Except EvalErr Unit
  | .posInf => .error .nonFinite
  | .negInf => .error .nonFinite
  | .czoo => .error .nonFinite
  | .cnan => .error .nonFinite
  | .rat _ => .ok ()

/-- Outcome of `parse_expr` + auto-evaluation on a given input string. -/
inductive ParseRes where
  | fail
  | ok (c : SymC)
deriving DecidableEq, Repr

/-- Model of `_eval_numeric` (`routers/marking.py:180-187`) applied to the parse
outcome of its input: complexity guard, symbolic finiteness guard, then
`float(sym.evalf())` (binary64 rounding; overflow yields `inf`, rejected by
the final `math.isfinite` check as `NonFiniteResult`). -/
def evalNumeric : ParseRes → Except EvalErr ℚ
  | .fail => .error .parseFail
  | .ok c =>
    match assertExprComplexity (.num c) with
    | .error e => .error e
    | .ok _ =>
      match assertFiniteSym c with
      | .error e => .error e
      | .ok _ =>
        match c with
        | .rat q =>
          match toDouble q with
          | some d => .ok d
          | none => .error .nonFinite
        | _ => .error .nonFinite

/-! ## Equivalence checking and canonical fractions -/

/-- The canonical lowest-terms form `(p, q)` of a rational — sympy `Rational`
is kept in exactly this form, and `f"{val.p}/{val.q}"` strings are identical
iff these pairs are identical. -/
def canonFrac (x : ℚ) : ℤ × ℕ := (x.num, x.den)

/-- The `"p/q"` display string of a canonical rational. -/
def ratCanonStr (x : ℚ) : String := toString x.num ++ "/" ++ toString x.den

/-- The fraction-path equality check of `_mark_one`
(`routers/marking.py:362-366`):
`bool(exp_value.equals(user_val)) or float(exp_value) == float(user_val)`.
`equals` on exact rationals is exact equality; `==` on the two binary64
conversions is equality of the rounded values.  When a conversion fails
(CPython raises `OverflowError` converting an out-of-range sympy `Integer`)
the `except` branch keeps only the `equals` test. -/
def valuesEqualFrac (x y : ℚ) : Bool :=
  match toDouble x, toDouble y with
  | some a, some b => x == y || a == b
  | _, _ => x == y

/-- The absolute tolerance `1e-9` (modelled as the exact rational; no claim
below sits on the last-ulp boundary of the decimal-to-double conversion). -/
def tol : ℚ := 1 / 1000000000

/-- Model of `math.isclose(a, b, rel_tol=0, abs_tol=1e-9)` on binary64 values. -/
def isClose (a b : ℚ) : Bool := |a - b| ≤ tol

/-! ## Expected-answer preparation and the single-item grader -/

/-- Python `str(float)` for a non-integral value.  CPython prints the shortest
decimal that round-trips; that digit string is not reproduced by the model (no
claim below reads it) — the exact `num/den` form keeps the function total and
injective. -/
def pyFloatRepr (x : ℚ) : String := ratCanonStr x

/-- Model of `_num_to_clean_str` (`routers/marking.py:208-211`): integers within
`1e-12` of the value print as `str(int(round(x)))` (banker's rounding, like
Python's `round`); model values are always finite so the `math.isfinite`
conjunct holds. -/
def numToCleanStr (x : ℚ) : String :=
  if |x - (rne x : ℚ)| < 1 / 1000000000000 then toString (rne x) else pyFloatRepr x

/-- The module-level grading-policy toggles of `routers/marking.py:31-35`
(`STRICT_SIMPLIFICATION`, `PARTIAL_CREDIT_FOR_NON_REDUCED`,
`NOT_REDUCED_SCORE_VALUE`), modelled as an explicit configuration value. -/
structure GradingConfig where
  strictSimplification : Bool
  partialCreditForNonReduced : Bool
  notReducedScoreValue : ℚ
deriving DecidableEq, Repr

/-- The values the module constants carry in the source. -/
def defaultConfig : GradingConfig :=
  { strictSimplification := false
    partialCreditForNonReduced := false
    notReducedScoreValue := 1/2 }

/-- A question record as the grader consumes it.  `rawExpected` models the
result of `_get_raw_expected(q)` (`routers/marking.py:71-84`): the first
present of the keys `answer_expr`/`expected`/`answer`/`expected_expr`/
`expected_str`, numeric literals stringified, stripped; `none` when absent or
blank.  `requireSimplified` models `bool(q.get("require_simplified"))`. -/
structure Question where
  id : String
  qtype : Option String
  rawExpected : Option String
  requireSimplified : Bool
deriving DecidableEq, Repr

/-- The tuple `_prepare_expected` returns
(`is_fraction`, `expected_str`, `expected_value`, `error_feedback`). -/
structure Prepared where
  isFraction : Bool
  expStr : Option String
  expVal : Option ℚ
  errMsg : String
deriving DecidableEq, Repr

/-- Message for a fraction question whose expected value cannot be computed. -/
def missingFracMsg : String := "Question is missing its expected fraction (answer_expr)."

/-- Message for a numeric question whose expected value cannot be computed. -/
def missingAnsMsg : String := "Question is missing its expected answer."

/-- The sympy fallback of `_prepare_expected`'s fraction branch
(`routers/marking.py:261-275`): `_canonical_fraction_str` + `nsimplify`; any
failure (parse error or non-finite value) yields the missing-fraction tuple. -/
def prepareFracFallback (parse : String → ParseRes) (rawStr : String) : Prepared :=
  match parse rawStr with
  | .fail => ⟨true, some rawStr, none, missingFracMsg⟩
  | .ok c =>
    match c with
    | .rat u => ⟨true, some (ratCanonStr u), some u, ""⟩
    | _ => ⟨true, some rawStr, none, missingFracMsg⟩

/-- The sympy fallback of `_prepare_expected`'s numeric branch
(`routers/marking.py:284-294`): parse, complexity guard, `nsimplify`,
finiteness, then `float(...)`. -/
def prepareNumFallback (parse : String → ParseRes) (rawStr : String) : Prepared :=
  match parse rawStr with
  | .fail => ⟨false, some rawStr, none, missingAnsMsg⟩
  | .ok c =>
    match c with
    | .rat u =>
      match toDouble u with
      | some d => ⟨false, some (numToCleanStr d), some d, ""⟩
      | none => ⟨false, some rawStr, none, missingAnsMsg⟩
    | _ => ⟨false, some rawStr, none, missingAnsMsg⟩

/-- Model of `_prepare_expected` (`routers/marking.py:214-294`).  A question counts as
a fraction either by explicit type `"simplify_fraction"` or because its raw
expected text matches the literal-fraction pattern.  Fraction questions take a
fast integer path through `Rational(a, b)` (auto-reduced; zero denominator
fails closed), falling back to sympy.  Numeric questions try a plain
`float(...)` first, falling back to sympy.  (A decimal literal so large that
`float()` overflows to `inf` is outside the modelled fragment and routed to
the fallback.) -/
def prepareExpected (parse : String → ParseRes) (q : Question) : Prepared :=
  let isFrac := (q.qtype == some "simplify_fraction") ||
    (match q.rawExpected with
     | some r => fracPatMatch r
     | none => false)
  match q.rawExpected with
  | none => ⟨isFrac, none, none, if isFrac then missingFracMsg else missingAnsMsg⟩
  | some r =>
    if pyStrip r = "" then
      ⟨isFrac, none, none, if isFrac then missingFracMsg else missingAnsMsg⟩
    else
      let rawStr := pyStrip r
      if isFrac then
        match breakAtSlash rawStr.toList with
        | some (ns, ds) =>
          match pyIntParse (String.mk ns), pyIntParse (String.mk ds) with
          | some a, some b =>
            if b = 0 then ⟨true, some rawStr, none, missingFracMsg⟩
            else
              let rq : ℚ := (a : ℚ) / (b : ℚ)
              ⟨true, some (ratCanonStr rq), some rq, ""⟩
          | _, _ => prepareFracFallback parse rawStr
        | none => prepareFracFallback parse rawStr
      else
        match pyFloatParse rawStr with
        | some x =>
          match toDouble x with
          | some d => ⟨false, some (numToCleanStr d), some d, ""⟩
          | none => prepareNumFallback parse rawStr
        | none => prepareNumFallback parse rawStr

/-- The per-item grading verdict (`score` is 0, 1, or the partial-credit
value; `expected`/`expected_str` mirror the two response fields). -/
structure Verdict where
  ok : Bool
  correct : Bool
  score : ℚ
  feedback : String
  expected : Option String
  expectedStr : Option String
deriving DecidableEq, Repr

/-- Python f-string interpolation of an optional value (`None` prints as
`"None"`; unreachable in practice because the fraction branch always has a
rendered expected string). -/
def pyStrOpt : Option String → String
  | some s => s
  | none => "None"

/-- Model of `any(op in raw for op in ("+", "-", "*", "/", "^", " "))`. -/
def hasAnyOp (s : String) : Bool :=
  strHas s "+" || strHas s "-" || strHas s "*" || strHas s "/" ||
    strHas s "^" || strHas s " "

/-- Model of `_mark_one` (`routers/marking.py:300-450`): expected is computed first so
every return path carries it; then input validation; then the fraction or
numeric comparison path under the grading policy. -/
def markOne (cfg : GradingConfig) (parse : String → ParseRes) (q : Question)
    (answer : String) : Verdict :=
  let p := prepareExpected parse q
  match validateAnswerText answer with
  | some m => ⟨false, false, 0, m, p.expStr, p.expStr⟩
  | none =>
    match p.expVal with
    | none =>
      ⟨false, false, 0,
        (if p.errMsg = "" then
          (if p.isFraction then missingFracMsg else missingAnsMsg)
         else p.errMsg),
        p.expStr, p.expStr⟩
    | some v =>
      let enforceSimplify := cfg.strictSimplification || q.requireSimplified
      if p.isFraction then
        match parse answer with
        | .fail => ⟨false, false, 0, invalidCharsMsg, p.expStr, p.expStr⟩
        | .ok c =>
          match assertExprComplexity (.num c) with
          | .error e => ⟨false, false, 0, msgOfErr e, p.expStr, p.expStr⟩
          | .ok _ =>
          match c with
          | .rat u =>
            if valuesEqualFrac v u then
              if strHas answer "/" && !isReducedFractionStr answer then
                if enforceSimplify then
                  ⟨true, false, 0,
                    "Reduce your fraction to " ++ pyStrOpt p.expStr ++ ".",
                    p.expStr, p.expStr⟩
                else
                  ⟨true, true,
                    (if cfg.partialCreditForNonReduced then cfg.notReducedScoreValue else 1),
                    "Correct, but reduce your fraction to " ++ pyStrOpt p.expStr ++ ".",
                    p.expStr, p.expStr⟩
              else ⟨true, true, 1, "", p.expStr, p.expStr⟩
            else ⟨true, false, 0, "", p.expStr, p.expStr⟩
          | _ => ⟨false, false, 0, nonFiniteMsg, p.expStr, p.expStr⟩
      else
        match evalNumeric (parse answer) with
        | .error e => ⟨false, false, 0, msgOfErr e, p.expStr, p.expStr⟩
        | .ok uval =>
          let correct := isClose uval v
          let fb :=
            if correct then
              match p.expStr with
              | some es =>
                if es ≠ "" && pyStrip answer ≠ es && hasAnyOp (pyStrip answer) then
                  "Correct; simplest form is " ++ es ++ "."
                else ""
              | none => ""
            else ""
          ⟨true, correct, if correct then 1 else 0, fb, p.expStr, p.expStr⟩

/-! ## Endpoints: `mark` and `mark_batch`

Wall-clock time and the database are external collaborators: the measured
grading-pass duration (`perf_counter` difference up to line 516) enters as
`measuredMs`, the client-supplied `duration_ms` field as `reqDurationMs`, and
the outcome of the Attempt-store `try` block as `persist` (`some id` when the
commit succeeds, `none` when any exception is raised and swallowed).
-/

/-- The verdict `mark`/`mark_batch` build for an unknown question id (the
batch version sets `expected`/`expected_str` to `None` explicitly; the
`mark` version omits them and pydantic defaults them to `None`). -/
def unknownIdVerdict : Verdict := ⟨false, false, 0, "unknown question id", none, none⟩

/-- Model of the `mark` endpoint (`routers/marking.py:470-487`): first question with matching id
(`next(...)`); unknown id short-circuits; expected is computed before
validation so validation failures still carry it; otherwise defer to
`_mark_one`. -/
def mark (cfg : GradingConfig) (parse : String → ParseRes) (questions : List Question)
    (reqId answer : String) : Verdict :=
  match questions.find? (fun qq => qq.id == reqId) with
  | none => unknownIdVerdict
  | some q =>
    let p := prepareExpected parse q
    match validateAnswerText answer with
    | some m => ⟨false, false, 0, m, p.expStr, p.expStr⟩
    | none => markOne cfg parse q answer

/-- One item of a `mark-batch` request. -/
structure BatchItem where
  id : String
  answer : String
deriving DecidableEq, Repr

/-- One entry of the batch `results` list. -/
structure BatchEntry where
  id : String
  response : Verdict
deriving DecidableEq, Repr

/-- The `mark-batch` response (plus the Attempt-store view of it). -/
structure BatchResult where
  ok : Bool
  total : ℕ
  correct : ℕ
  results : List BatchEntry
  attemptId : Option ℕ
  durationMs : ℤ
deriving DecidableEq, Repr

/-- Model of `questions_by_id = {q["id"]: q for q in get_questions()}` then
`questions_by_id.get(it.id)`: a dict comprehension keeps the *last* record
with a given id. -/
def findQuestionLast (questions : List Question) (qid : String) : Option Question :=
  questions.reverse.find? (fun qq => qq.id == qid)

/-- How `mark_batch` grades one item (`routers/marking.py:498-510`). -/
def gradeItem (cfg : GradingConfig) (parse : String → ParseRes)
    (questions : List Question) (it : BatchItem) : Verdict :=
  match findQuestionLast questions it.id with
  | none => unknownIdVerdict
  | some q => markOne cfg parse q it.answer

/-- The grading loop of `mark_batch`: appends one entry per item and bumps
`correct_count` when the verdict's `correct` field is truthy. -/
def batchLoop (cfg : GradingConfig) (parse : String → ParseRes)
    (questions : List Question) : List BatchItem → List BatchEntry × ℕ → List BatchEntry × ℕ
  | [], acc => acc
  | it :: rest, acc =>
    let res := gradeItem cfg parse questions it
    batchLoop cfg parse questions rest
      (acc.1 ++ [⟨it.id, res⟩], acc.2 + (if res.correct then 1 else 0))

/-- The Attempt record `mark_batch` hands to the store
(`routers/marking.py:525-527`): totals, serialized results, and the same
`duration_ms` value the response reports. -/
structure AttemptRec where
  total : ℕ
  correct : ℕ
  items : List BatchEntry
  durationMs : ℤ
deriving DecidableEq, Repr

/-- Model of the `mark_batch` endpoint (`routers/marking.py:490-542`).  `duration_ms` is the
client-supplied value when present, else the measured grading-pass duration
(line 517); persistence is attempted afterwards and any failure leaves
`attempt_id = None`; the response's `ok` is the literal `True`. -/
def markBatch (cfg : GradingConfig) (parse : String → ParseRes)
    (questions : List Question) (items : List BatchItem)
    (reqDurationMs : Option ℤ) (measuredMs : ℤ) (persist : Option ℕ) : BatchResult :=
  let graded := batchLoop cfg parse questions items ([], 0)
  let total := graded.1.length
  let durationMs := reqDurationMs.getD measuredMs
  { ok := true
    total := total
    correct := graded.2
    results := graded.1
    attemptId := persist
    durationMs := durationMs }

/-- The Attempt record submitted to the store by the same call. -/
def submittedAttempt (cfg : GradingConfig) (parse : String → ParseRes)
    (questions : List Question) (items : List BatchItem)
    (reqDurationMs : Option ℤ) (measuredMs : ℤ) : AttemptRec :=
  let graded := batchLoop cfg parse questions items ([], 0)
  { total := graded.1.length
    correct := graded.2
    items := graded.1
    durationMs := reqDurationMs.getD measuredMs }

/-! ## Claim-side definitions and concrete fixtures -/

/-- Fraction equivalence as the specification words it (for comparison with
`valuesEqualFrac`, which embeds the source): equal iff the canonical rational
forms are identical, or — when exact symbolic equality cannot be established —
the two binary64 approximations differ by at most `1e-9` in absolute value. -/
def claimEqualFrac (x y : ℚ) : Bool :=
  (canonFrac x == canonFrac y) ||
    (match toDouble x, toDouble y with
     | some a, some b => isClose a b
     | _, _ => false)

/-- Parse outcomes (sympy auto-evaluation) for the concrete strings the
witnesses below use: `6/8` and `3/4` evaluate to the `Rational` 3/4, `25` to
the `Integer` 25, and `1^2001` folds to the `Integer` 1 during
`parse_expr(..., evaluate=True)`. -/
def parseFixture : String → ParseRes := fun s =>
  if s = "6/8" then .ok (.rat (3/4))
  else if s = "3/4" then .ok (.rat (3/4))
  else if s = "25" then .ok (.rat 25)
  else if s = "1^2001" then .ok (.rat 1)
  else .fail

/-- Parse function for batch fixtures that never succeeds. -/
def parseNone : String → ParseRes := fun _ => .fail

/-- The bank question `q4` (SimplifyFraction, expected `3/4`). -/
def q4 : Question := ⟨"q4", some "simplify_fraction", some "3/4", false⟩

/-- A question with an unsupported type and a numeric expected value. -/
def qEssay : Question := ⟨"qx", some "essay", some "25", false⟩

/-! ## Shared helper lemmas -/

/-- Reflexivity of the source fraction-equality check. -/
theorem valuesEqualFrac_self (v : ℚ) : valuesEqualFrac v v = true := by
  unfold valuesEqualFrac
  cases h : toDouble v <;> simp

/-- Both expected fields of every `_mark_one` verdict are the prepared
expected string, whatever path the grading takes. -/
theorem markOne_expected_fields (cfg : GradingConfig) (parse : String → ParseRes)
    (q : Question) (answer : String) :
    (markOne cfg parse q answer).expected = (prepareExpected parse q).expStr ∧
    (markOne cfg parse q answer).expectedStr = (prepareExpected parse q).expStr := by
  unfold markOne
  constructor <;> (dsimp only []; repeat' split) <;> rfl

deriving instance DecidableEq for Except

/-! ## Claims -/

/-- C1 (counterexample): the claim's 1e-9-tolerance reading of the fraction
equivalence disagrees with the source check at expected `1` and user value
`1 + 2^-33`: both are exactly representable doubles whose difference
(about `1.16e-10`) is within `1e-9`, so the claim judges them equal, but
line 364 tests `float(a) == float(b)` — exact equality of the rounded doubles
— and judges them unequal. -/
theorem c1_tolerance_counterexample :
    claimEqualFrac 1 (1 + 1/8589934592) = true ∧
    valuesEqualFrac 1 (1 + 1/8589934592) = false := by
  decide

/-- C1 (amended): for values inside the binary64 range, the fraction-path
equivalence check judges two exact values equal iff their canonical rational
forms are identical or their binary64 approximations are *exactly* equal
(not merely within 1e-9). -/
theorem c1_fraction_equivalence (x y : ℚ)
    (hx : (toDouble x).isSome = true) (hy : (toDouble y).isSome = true) :
    valuesEqualFrac x y = true ↔
      (canonFrac x = canonFrac y ∨ toDouble x = toDouble y) := by
  obtain ⟨a, ha⟩ := Option.isSome_iff_exists.mp hx
  obtain ⟨b, hb⟩ := Option.isSome_iff_exists.mp hy
  have hcanon : canonFrac x = canonFrac y ↔ x = y := by
    unfold canonFrac
    constructor
    · intro h
      exact Rat.ext (congrArg Prod.fst h) (congrArg Prod.snd h)
    · intro h
      rw [h]
  unfold valuesEqualFrac
  rw [ha, hb]
  simp [hcanon, ha, hb]

/-- C1 (witness): the amended equivalence theorem applied at `3/4` vs `1/2`. -/
theorem c1_fraction_equivalence_witness :
    valuesEqualFrac (3/4) (1/2) = true ↔
      (canonFrac (3/4 : ℚ) = canonFrac (1/2 : ℚ) ∨
        toDouble (3/4 : ℚ) = toDouble (1/2 : ℚ)) :=
  c1_fraction_equivalence (3/4) (1/2) (by decide) (by decide)

/-- C2: the `TooComplex` rejection is unreachable from the evaluator — for
every parse outcome the bounded evaluator never returns the `TooComplex`
error (every constant is a sympy number, and `_assert_expr_complexity`
returns early for numbers, its internal finiteness raise being swallowed by
the bare `except`), and in particular the claim's own failing case
`"1^2001"` passes validation and evaluates successfully to `1.0`, because
`parse_expr(..., evaluate=True)` folds `1**2001` to `Integer(1)` before the
guard ever sees an exponent node. -/
theorem c2_too_complex_unreachable :
    (∀ p : ParseRes, (evalNumeric p == Except.error EvalErr.tooComplex) = false) ∧
    evalNumeric (.ok (.rat 1)) = .ok 1 ∧
    validateAnswerText "1^2001" = none := by
  refine ⟨?_, by decide, by decide⟩
  intro p
  cases p with
  | fail => decide
  | ok c =>
    cases c with
    | rat q =>
      unfold evalNumeric assertExprComplexity assertFiniteSym
      cases h : toDouble q <;> simp [h]
    | posInf => decide
    | negInf => decide
    | czoo => decide
    | cnan => decide

/-- C3 (counterexample): the empty answer fails validation, but its feedback
message `"Answer required."` does not contain the substring `"allowed"`,
contradicting the claim that all three failure messages do. -/
theorem c3_allowed_counterexample :
    validateAnswerText "" = some "Answer required." ∧
    strHas "Answer required." "allowed" = false := by
  decide

/-- C3 (amended): validation fails exactly as claimed — empty trimmed input,
length over 100, or a character outside the allowed class — but only the
disallowed-characters message contains the substring `"allowed"`; the empty
and too-long cases return `"Answer required."` and
`"Answer too long (> 100)."` respectively. -/
theorem c3_validation_cases (s : String) :
    (pyStrip s = "" → validateAnswerText s = some "Answer required.") ∧
    (pyStrip s ≠ "" → 100 < s.length →
      validateAnswerText s = some "Answer too long (> 100).") ∧
    (pyStrip s ≠ "" → s.length ≤ 100 → s.toList.all isAllowedChar = false →
      validateAnswerText s = some invalidCharsMsg) ∧
    (∀ m, validateAnswerText s = some m →
      (strHas m "allowed" = true ↔ m = invalidCharsMsg)) ∧
    (validateAnswerText s = none ↔
      (pyStrip s ≠ "" ∧ s.length ≤ 100 ∧ s.toList.all isAllowedChar = true)) := by
  have hm1 : strHas "Answer required." "allowed" = false := by decide
  have hm2 : strHas "Answer too long (> 100)." "allowed" = false := by decide
  have hm3 : strHas invalidCharsMsg "allowed" = true := by decide
  have hne1 : "Answer required." ≠ invalidCharsMsg := by decide
  have hne2 : "Answer too long (> 100)." ≠ invalidCharsMsg := by decide
  have hlen1 : pyStrip s = "" ∨ 1 ≤ s.length := by
    rcases s with ⟨d⟩
    cases d with
    | nil =>
      left
      decide
    | cons c t =>
      right
      show 1 ≤ (c :: t).length
      simp
  unfold validateAnswerText
  split_ifs with h1 h2 h3
  · refine ⟨fun _ => rfl, fun h => absurd h1 h, fun h => absurd h1 h, ?_, ?_⟩
    · intro m hm
      cases hm
      simp [hm1, hne1]
    · constructor
      · intro h
        exact h.elim
      · rintro ⟨h, _⟩
        exact absurd h1 h
  · refine ⟨fun h => absurd h h1, fun _ _ => rfl,
      fun _ hle _ => absurd h2 (not_lt.mpr hle), ?_, ?_⟩
    · intro m hm
      cases hm
      simp [hm2, hne2]
    · constructor
      · intro h
        exact h.elim
      · rintro ⟨_, hle, _⟩
        exact absurd h2 (not_lt.mpr hle)
  · have hfm : allowedFullmatch s = false := by
      rcases h : allowedFullmatch s with _ | _
      · rfl
      · rw [h] at h3
        cases h3
    refine ⟨fun h => absurd h h1, fun _ h => absurd h h2, fun _ _ _ => rfl, ?_, ?_⟩
    · intro m hm
      cases hm
      simp [hm3]
    · constructor
      · intro h
        exact h.elim
      · rintro ⟨_, _, hall⟩
        rcases hlen1 with he | hl1
        · exact absurd he h1
        · have : allowedFullmatch s = true := by
            unfold allowedFullmatch
            rw [Bool.and_eq_true, Bool.and_eq_true]
            exact ⟨⟨decide_eq_true hl1, decide_eq_true (not_lt.mp h2)⟩, hall⟩
          rw [this] at hfm
          cases hfm
  · have hfm : allowedFullmatch s = true := by
      rcases h : allowedFullmatch s with _ | _
      · rw [h] at h3
        exact absurd rfl h3
      · rfl
    have hall : s.toList.all isAllowedChar = true := by
      unfold allowedFullmatch at hfm
      simp only [Bool.and_eq_true] at hfm
      exact hfm.2
    refine ⟨fun h => absurd h h1, fun _ h => absurd h h2,
      fun _ _ hf => ?_, ?_, ?_⟩
    · rw [hall] at hf
      cases hf
    · intro m hm
      cases hm
    · exact ⟨fun _ => ⟨h1, not_lt.mp h2, hall⟩, fun _ => rfl⟩

/-- C3 (witness): the amended theorem applied at `"abc"`, which fails the
character class and yields the message containing `"allowed"`. -/
theorem c3_validation_cases_witness :
    validateAnswerText "abc" = some invalidCharsMsg :=
  (c3_validation_cases "abc").2.2.1 (by decide) (by decide) (by decide)

/-- C4: for a fraction-type grading call whose answer passes validation,
evaluates to exactly the expected value, and was typed as a literal `a/b`
fraction not in lowest terms: with strict simplification in force (globally
or via the per-question `require_simplified` flag) the verdict is
`correct=false`, `score=0` with the reduce instruction; otherwise the verdict
is `correct=true` with the partial-credit value if partial credit is enabled
(else full credit `1`) and the gentle nudge naming the canonical form. -/
theorem c4_nonreduced_policy (cfg : GradingConfig) (parse : String → ParseRes)
    (q : Question) (answer : String) (es : String) (v : ℚ)
    (hfrac : (prepareExpected parse q).isFraction = true)
    (hes : (prepareExpected parse q).expStr = some es)
    (hv : (prepareExpected parse q).expVal = some v)
    (hvalid : validateAnswerText answer = none)
    (hparse : parse answer = .ok (.rat v))
    (hslash : strHas answer "/" = true)
    (hnotred : isReducedFractionStr answer = false) :
    (cfg.strictSimplification = true ∨ q.requireSimplified = true →
      markOne cfg parse q answer =
        ⟨true, false, 0, "Reduce your fraction to " ++ es ++ ".", some es, some es⟩) ∧
    (cfg.strictSimplification = false → q.requireSimplified = false →
      markOne cfg parse q answer =
        ⟨true, true,
          (if cfg.partialCreditForNonReduced then cfg.notReducedScoreValue else 1),
          "Correct, but reduce your fraction to " ++ es ++ ".", some es, some es⟩) := by
  rcases hP : prepareExpected parse q with ⟨pf, pes, pv, pe⟩
  rw [hP] at hfrac hes hv
  dsimp only [] at hfrac hes hv
  subst hfrac
  subst hes
  subst hv
  unfold markOne
  rw [hP, hvalid]
  dsimp only []
  rw [hparse]
  dsimp only []
  simp only [valuesEqualFrac_self, hslash, hnotred, Bool.not_false, Bool.and_self,
    if_true, pyStrOpt]
  constructor
  · intro hstrict
    have henf : (cfg.strictSimplification || q.requireSimplified) = true := by
      rcases hstrict with h | h <;> simp [h]
    simp [henf, assertExprComplexity]
  · intro hs hr
    simp [hs, hr, assertExprComplexity]

/-- C4 (witness): the policy theorem applied to question `q4`
(expected `3/4`, `require_simplified` unset) and answer `"6/8"` under a
strict configuration. -/
theorem c4_nonreduced_policy_witness :
    markOne ⟨true, false, 1/2⟩ parseFixture q4 "6/8" =
      ⟨true, false, 0, "Reduce your fraction to 3/4.", some "3/4", some "3/4"⟩ :=
  (c4_nonreduced_policy ⟨true, false, 1/2⟩ parseFixture q4 "6/8" "3/4" (3/4)
    (by decide) (by decide) (by decide) (by decide) (by decide) (by decide)
    (by decide)).1 (Or.inl rfl)

/-- Helper: the grading loop of `mark_batch` is the in-order map of
`gradeItem` over the items, with `correct_count` counting the verdicts whose
`correct` field is true. -/
theorem batchLoop_spec (cfg : GradingConfig) (parse : String → ParseRes)
    (questions : List Question) :
    ∀ (items : List BatchItem) (rs : List BatchEntry) (n : ℕ),
      batchLoop cfg parse questions items (rs, n) =
        (rs ++ items.map (fun it => ⟨it.id, gradeItem cfg parse questions it⟩),
         n + items.countP (fun it => (gradeItem cfg parse questions it).correct)) := by
  intro items
  induction items with
  | nil =>
    intro rs n
    simp [batchLoop]
  | cons it rest ih =>
    intro rs n
    simp only [batchLoop]
    rw [ih]
    apply Prod.ext
    · simp
    · simp only [List.countP_cons]
      cases h : (gradeItem cfg parse questions it).correct <;> simp [h] <;> omega

/-- C5: the batch grader grades every item independently, in order, with no
short-circuit — `results` is exactly the in-order map of the single-item
grader over the items — and `len(results) = total = len(items)` while
`correct_count` counts the verdicts with `correct=true`. -/
theorem c5_batch_invariants (cfg : GradingConfig) (parse : String → ParseRes)
    (questions : List Question) (items : List BatchItem)
    (reqDurationMs : Option ℤ) (measuredMs : ℤ) (persist : Option ℕ) :
    (markBatch cfg parse questions items reqDurationMs measuredMs persist).results =
      items.map (fun it => ⟨it.id, gradeItem cfg parse questions it⟩) ∧
    (markBatch cfg parse questions items reqDurationMs measuredMs persist).results.length
      = items.length ∧
    (markBatch cfg parse questions items reqDurationMs measuredMs persist).total
      = items.length ∧
    (markBatch cfg parse questions items reqDurationMs measuredMs persist).correct =
      (markBatch cfg parse questions items reqDurationMs measuredMs persist).results.countP
        (fun e => e.response.correct) := by
  have h := batchLoop_spec cfg parse questions items [] 0
  unfold markBatch
  rw [h]
  simp [List.countP_map, Function.comp_def]

/-- C5 (witness): the invariants instantiated on a concrete two-item batch. -/
theorem c5_batch_invariants_witness :
    (markBatch defaultConfig parseFixture [q4] [⟨"q4", "3/4"⟩, ⟨"zz", "1"⟩]
        none 0 (some 1)).results =
      [⟨"q4", gradeItem defaultConfig parseFixture [q4] ⟨"q4", "3/4"⟩⟩,
       ⟨"zz", gradeItem defaultConfig parseFixture [q4] ⟨"zz", "1"⟩⟩] ∧
    (markBatch defaultConfig parseFixture [q4] [⟨"q4", "3/4"⟩, ⟨"zz", "1"⟩]
        none 0 (some 1)).total = 2 :=
  ⟨(c5_batch_invariants defaultConfig parseFixture [q4] [⟨"q4", "3/4"⟩, ⟨"zz", "1"⟩]
      none 0 (some 1)).1,
   (c5_batch_invariants defaultConfig parseFixture [q4] [⟨"q4", "3/4"⟩, ⟨"zz", "1"⟩]
      none 0 (some 1)).2.2.1⟩

/-- C6: a persistence failure is swallowed — the batch result is identical to
the one a successful persistence would have produced, except that
`attempt_id` is `null`; in particular `ok`, the totals, and every verdict are
unchanged, and no exception escapes (the model is total). -/
theorem c6_persistence_swallowed (cfg : GradingConfig) (parse : String → ParseRes)
    (questions : List Question) (items : List BatchItem)
    (reqDurationMs : Option ℤ) (measuredMs : ℤ) (attemptId : ℕ) :
    (markBatch cfg parse questions items reqDurationMs measuredMs none).attemptId
      = none ∧
    markBatch cfg parse questions items reqDurationMs measuredMs none =
      { markBatch cfg parse questions items reqDurationMs measuredMs (some attemptId)
          with attemptId := none } := by
  exact ⟨rfl, rfl⟩

/-- C7: the reported and persisted `duration_ms` is *not* always the measured
grading-pass duration — when the client supplies `duration_ms` the server
reports the client value (here `123456` although the measured pass took
`5` ms), contradicting the schema comment "server computes its own duration
anyway"; only when the client omits it does the response carry the measured
grading-pass value (which does exclude persistence, being taken before the
store call). -/
theorem c7_duration_client_override :
    (markBatch defaultConfig parseNone [] [] (some 123456) 5 (some 1)).durationMs
      = 123456 ∧
    (submittedAttempt defaultConfig parseNone [] [] (some 123456) 5).durationMs
      = 123456 ∧
    ((123456 : ℤ) == 5) = false ∧
    (∀ (cfg : GradingConfig) (parse : String → ParseRes)
        (questions : List Question) (items : List BatchItem)
        (measuredMs : ℤ) (persist : Option ℕ),
      (markBatch cfg parse questions items none measuredMs persist).durationMs
        = measuredMs ∧
      (submittedAttempt cfg parse questions items none measuredMs).durationMs
        = measuredMs) := by
  exact ⟨rfl, rfl, by decide, fun _ _ _ _ _ _ => ⟨rfl, rfl⟩⟩

/-- C8 (counterexample): a question of type `"essay"` (neither Numeric nor
SimplifyFraction) with expected `"25"` and answer `"25"` is *not*
short-circuited with an `ok=false` unsupported-type verdict: the grader
routes it down the numeric path and returns `ok=true`, `correct=true`,
`score=1`. -/
theorem c8_unsupported_type_counterexample :
    qEssay.qtype = some "essay" ∧
    markOne defaultConfig parseFixture qEssay "25" =
      ⟨true, true, 1, "", some "25", some "25"⟩ := by
  constructor
  · rfl
  · decide

/-- C8 (amended): there is no unsupported-type short-circuit — the question
type influences grading only through equality with `"simplify_fraction"`:
any two non-`simplify_fraction` types grade identically, and such a question
whose expected text does not match the literal-fraction pattern is prepared
as a Numeric question (`is_fraction = false`). -/
theorem c8_no_unsupported_type_branch (cfg : GradingConfig)
    (parse : String → ParseRes) (qid : String) (raw : Option String) (rs : Bool)
    (answer : String) (t u : String)
    (ht : t ≠ "simplify_fraction") (hu : u ≠ "simplify_fraction") :
    markOne cfg parse ⟨qid, some t, raw, rs⟩ answer =
      markOne cfg parse ⟨qid, some u, raw, rs⟩ answer ∧
    (∀ r, raw = some r → fracPatMatch r = false →
      (prepareExpected parse ⟨qid, some t, raw, rs⟩).isFraction = false) := by
  have hbt : (some t == some "simplify_fraction") = false := by
    simp [ht]
  have hbu : (some u == some "simplify_fraction") = false := by
    simp [hu]
  have hprep : prepareExpected parse ⟨qid, some t, raw, rs⟩ =
      prepareExpected parse ⟨qid, some u, raw, rs⟩ := by
    unfold prepareExpected
    rw [hbt, hbu]
  constructor
  · unfold markOne
    rw [hprep]
  · intro r hr hpat
    subst hr
    unfold prepareExpected prepareNumFallback prepareFracFallback
    rw [hbt]
    dsimp only []
    rw [hpat]
    simp only [Bool.or_self]
    (repeat' split) <;> first | rfl | simp_all

/-- C8 (witness): the amended theorem applied with types `"essay"` and
`"numeric"` on expected text `"25"`. -/
theorem c8_no_unsupported_type_branch_witness :
    markOne defaultConfig parseFixture ⟨"qx", some "essay", some "25", false⟩ "25" =
      markOne defaultConfig parseFixture ⟨"qx", some "numeric", some "25", false⟩ "25" ∧
    (prepareExpected parseFixture ⟨"qx", some "essay", some "25", false⟩).isFraction
      = false :=
  ⟨(c8_no_unsupported_type_branch defaultConfig parseFixture "qx" (some "25") false
      "25" "essay" "numeric" (by decide) (by decide)).1,
   (c8_no_unsupported_type_branch defaultConfig parseFixture "qx" (some "25") false
      "25" "essay" "numeric" (by decide) (by decide)).2 "25" rfl (by decide)⟩

/-- C9: the batch response's top-level `ok` flag is the literal `True` for
every request — empty item lists, all-failing items, unknown ids and failed
persistence included. -/
theorem c9_batch_ok_always_true (cfg : GradingConfig) (parse : String → ParseRes)
    (questions : List Question) (items : List BatchItem)
    (reqDurationMs : Option ℤ) (measuredMs : ℤ) (persist : Option ℕ) :
    (markBatch cfg parse questions items reqDurationMs measuredMs persist).ok = true :=
  rfl

/-- C10: whenever `_prepare_expected` renders an expected string, every
verdict `_mark_one` can return carries it in both `expected` and
`expected_str` — validation failures and user-evaluation failures included,
because the expected value is computed before the answer is validated; and
the expected string is `none` only when the question's raw expected text is
absent or blank. -/
theorem c10_expected_always_carried (cfg : GradingConfig)
    (parse : String → ParseRes) (q : Question) (answer : String) :
    (∀ es, (prepareExpected parse q).expStr = some es →
      (markOne cfg parse q answer).expected = some es ∧
      (markOne cfg parse q answer).expectedStr = some es) ∧
    (∀ r, q.rawExpected = some r →
      pyStrip r = "" ∨ (prepareExpected parse q).expStr.isSome = true) := by
  constructor
  · intro es hes
    have h := markOne_expected_fields cfg parse q answer
    rw [hes] at h
    exact h
  · intro r hr
    by_cases hstrip : pyStrip r = ""
    · exact Or.inl hstrip
    · right
      unfold prepareExpected
      rw [hr]
      dsimp only []
      rw [if_neg hstrip]
      split
      · split
        · split
          · split <;> rfl
          · unfold prepareFracFallback
            split
            · rfl
            · split <;> rfl
        · unfold prepareFracFallback
          split
          · rfl
          · split <;> rfl
      · split
        · split
          · rfl
          · unfold prepareNumFallback
            split
            · rfl
            · split
              · split <;> rfl
              · rfl
        · unfold prepareNumFallback
          split
          · rfl
          · split
            · split <;> rfl
            · rfl

/-- C10 (witness): the carried-expected theorem applied to question `q4` and
the invalid answer `"abc"` (validation fails, `ok=false`, yet both expected
fields carry `"3/4"`). -/
theorem c10_expected_always_carried_witness :
    (markOne defaultConfig parseFixture q4 "abc").expected = some "3/4" ∧
    (markOne defaultConfig parseFixture q4 "abc").expectedStr = some "3/4" :=
  (c10_expected_always_carried defaultConfig parseFixture q4 "abc").1 "3/4" (by decide)

end Marking
